import Mathlib

/-!
Verification of the media processing and RAG pipeline of
`personal-ai-media-assistant` (FastAPI backend).

The Python services are shallowly embedded as pure Lean functions:
* `backend/app/services/llm_service.py` — `EmbeddingService.create_embeddings`,
  `EmbeddingService.store_embeddings`, `LLMService.generate_completion`,
  `LLMService.rag_query`;
* `backend/app/services/multimodal_processor.py` —
  `MultimodalProcessor._extract_text_from_image`, `_transcribe_audio`,
  `_extract_key_frames`, `_process_video`;
* `backend/app/api/api_v1/endpoints/media.py` — `upload_media_file`,
  `reprocess_media_file`, `process_media_file_async`.

External capabilities (the sentence-transformer encoder, the LangChain text
splitter, the OCR/whisper engines, the OpenAI/Anthropic clients) are passed in
as parameters or as `Except`-valued outcomes, mirroring the fact that the code
treats them as black boxes whose exceptions it catches.  Real-valued scores
(similarities, confidences) are modelled by `ℚ`.
-/

namespace MediaAssistant

/-- Python truthiness test `not s.strip()`: a string is blank iff every
character is whitespace (models `str.strip` on ASCII whitespace). -/
def isBlank (s : String) : Bool :=
  s.data.all Char.isWhitespace

/-- Python `s.startswith(p)` over the character lists of the strings. -/
def pyStartsWith (s p : String) : Bool :=
  p.data.isPrefixOf s.data

/-- Python `s.strip()`: drop leading and trailing whitespace characters. -/
def pyStrip (s : String) : String :=
  ⟨((s.data.dropWhile Char.isWhitespace).reverse.dropWhile Char.isWhitespace).reverse⟩

/-- Python `min` over a list of rationals (total with junk value 0 on `[]`;
the code only calls it on a non-empty list). -/
def listMin : List ℚ → ℚ
  | [] => 0
  | x :: xs => xs.foldl min x

/-- Per-chunk metadata attached by `EmbeddingService.create_embeddings`
(`chunk_index`, `chunk_size`, `original_length` merged with the caller's
metadata dict, modelled as an association list). -/
structure ChunkMetadata where
  chunk_index : Nat
  chunk_size : Nat
  original_length : Nat
  extra : List (String × String)
deriving DecidableEq

/-- One element of the list returned by `create_embeddings`:
`{"text": ..., "vector": ..., "metadata": ...}`. -/
structure Embedding where
  text : String
  vector : List ℚ
  metadata : ChunkMetadata
deriving DecidableEq

/-- `EmbeddingService.create_embeddings(text, metadata)`.  The LangChain
splitter and the sentence-transformer encoder are parameters `split` and
`encode`.  Blank input returns `[]` at once; otherwise the split chunks are
enumerated, blank chunks are skipped (`continue`), and each kept chunk is
paired with its vector and metadata. -/
def create_embeddings (split : String → List String) (encode : String → List ℚ)
    (text : String) (metadata : List (String × String)) : List Embedding :=
  if isBlank text then []
  else
    (split text).enum.filterMap fun p =>
      if isBlank p.2 then none
      else some
        { text := p.2
          vector := encode p.2
          metadata :=
            { chunk_index := p.1
              chunk_size := p.2.length
              original_length := text.length
              extra := metadata } }

/-- One record of the ChromaDB collection (`collection.add` row). -/
structure StoredRecord where
  id : String
  text : String
  vector : List ℚ
  metadata : ChunkMetadata
deriving DecidableEq

/-- `EmbeddingService.store_embeddings(embeddings, document_id)`: the batch
handed to `collection.add`, with `ids = [f"{document_id}_{i}" for i in
range(len(embeddings))]`; early-returns an empty batch on an empty input. -/
def store_embeddings (embeddings : List Embedding) (document_id : String) :
    List StoredRecord :=
  if embeddings = [] then []
  else
    embeddings.enum.map fun p =>
      { id := document_id ++ "_" ++ toString p.1
        text := p.2.text
        vector := p.2.vector
        metadata := p.2.metadata }

/-- Effect of `store_embeddings` on the ChromaDB collection state:
the batch is appended (no-op when the batch is empty). -/
def storeAdd (collection : List StoredRecord) (embeddings : List Embedding)
    (document_id : String) : List StoredRecord :=
  collection ++ store_embeddings embeddings document_id

/-- The stored chunks belonging to one document id (ids are assigned as
`{document_id}_{i}`, so they all start with `document_id ++ "_"`). -/
def docRecords (collection : List StoredRecord) (document_id : String) :
    List StoredRecord :=
  collection.filter fun r => pyStartsWith r.id (document_id ++ "_")

/-- One element of `EmbeddingService.similarity_search`'s result list:
`{"text": ..., "metadata": ..., "similarity": 1 - distance}`. -/
structure SearchResult where
  text : String
  similarity : ℚ
  metadata : List (String × String)
deriving DecidableEq

/-- Result dict of `LLMService.generate_completion`: either the success dict
(whose `"text"` entry we keep; `model`/`usage`/`finish_reason` elided) or the
`{"error": str(e)}` dict produced by the broad `except`. -/
inductive CompletionResult where
  | ok (text : String)
  | err (msg : String)
deriving DecidableEq

/-- Python `completion.get("text", "")`: the `{"error": ...}` dict has no
`"text"` key, so the default `""` is returned. -/
def completionGetText : CompletionResult → String
  | .ok t => t
  | .err _ => ""

/-- `LLMService.generate_completion`.  The two client calls are parameters
carrying either the API's text or the exception it raised; the function
dispatches on the model-name prefix, and its `try/except` turns every raised
exception (including the `ValueError` for an unsupported model) into the
`{"error": str(e)}` dict — it never propagates an exception. -/
def generate_completion (model : String)
    (openaiOutcome anthropicOutcome : Except String String) : CompletionResult :=
  if pyStartsWith model "gpt" then
    match openaiOutcome with
    | .ok t => .ok t
    | .error e => .err e
  else if pyStartsWith model "claude" then
    match anthropicOutcome with
    | .ok t => .ok t
    | .error e => .err e
  else
    .err ("Unsupported model: " ++ model)

/-- The literal fallback answer returned by `rag_query` when retrieval finds
nothing. -/
def noInfoAnswer : String := "関連する情報が見つかりませんでした。"

/-- Shape of the dict returned by `LLMService.rag_query`; a key absent from
the returned dict is `none`. -/
structure RagOutput where
  answer : Option String := none
  sources : Option (List SearchResult) := none
  confidence : Option ℚ := none
  model_info : Option CompletionResult := none
  error : Option String := none
deriving DecidableEq

/-- `LLMService.rag_query(query, top_k)`.  `searchOutcome` is the result of
`similarity_search` (or the exception it raised, caught by the enclosing
`try/except`); `genOutcome` is the dict `generate_completion` returns for the
built context (that call catches its own exceptions, so it contributes no
exception here).  Empty retrieval returns the fixed no-information dict;
otherwise the answer text, the sources, `min` of the similarities and the
whole completion dict are returned. -/
def rag_query (searchOutcome : Except String (List SearchResult))
    (genOutcome : CompletionResult) : RagOutput :=
  match searchOutcome with
  | .error e => { error := some e }
  | .ok [] =>
      { answer := some noInfoAnswer
        sources := some []
        confidence := some 0 }
  | .ok (r :: rs) =>
      { answer := some (completionGetText genOutcome)
        sources := some (r :: rs)
        confidence := some (listMin ((r :: rs).map SearchResult.similarity))
        model_info := some genOutcome }

/- ### Helper lemmas about `listMin` -/

theorem listMin_cons_cons (x a : ℚ) (l : List ℚ) :
    listMin (x :: a :: l) = listMin (min x a :: l) := rfl

/-- `listMin` of a non-empty list is a member of the list and a lower bound
for it: it is the minimum. -/
theorem listMin_spec :
    ∀ (xs : List ℚ) (x : ℚ),
      listMin (x :: xs) ∈ x :: xs ∧ ∀ y ∈ x :: xs, listMin (x :: xs) ≤ y := by
  intro xs
  induction xs with
  | nil =>
      intro x
      refine ⟨List.mem_singleton_self x, ?_⟩
      intro y hy
      rcases List.mem_singleton.mp hy with rfl
      exact le_refl _
  | cons a l ih =>
      intro x
      rw [listMin_cons_cons]
      obtain ⟨hmem, hle⟩ := ih (min x a)
      constructor
      · rcases List.mem_cons.mp hmem with h | h
        · rw [h]
          rcases min_cases x a with ⟨he, _⟩ | ⟨he, _⟩

          · rw [he]; exact List.mem_cons_self _ _
          · rw [he]; exact List.mem_cons_of_mem _ (List.mem_cons_self _ _)
        · exact List.mem_cons_of_mem _ (List.mem_cons_of_mem _ h)
      · intro y hy
        rcases List.mem_cons.mp hy with rfl | hy
        · exact le_trans (hle _ (List.mem_cons_self _ _)) (min_le_left _ _)
        rcases List.mem_cons.mp hy with rfl | hy
        · exact le_trans (hle _ (List.mem_cons_self _ _)) (min_le_right _ _)
        · exact hle _ (List.mem_cons_of_mem _ hy)

/- ### Multimodal processor (`multimodal_processor.py`) -/

/-- Arithmetic mean of a list of rationals (`np.mean`); the code only applies
it to non-empty lists (empty lists are guarded before the call). -/
def npMean (l : List ℚ) : ℚ := l.sum / l.length

/-- One EasyOCR detection: `(bbox, text, confidence)` with the bbox elided. -/
structure Detection where
  text : String
  confidence : ℚ
deriving DecidableEq

/-- Per-engine OCR result `{"text": ..., "confidence": ...}`. -/
structure OcrResult where
  text : String
  confidence : ℚ
deriving DecidableEq

/-- The EasyOCR branch of `_extract_text_from_image`: on success the detected
texts are joined with `" "` and the confidence is the mean of the detection
confidences (`0.0` for no detections); a raised exception yields
`{"text": "", "confidence": 0.0}`. -/
def easyocrResult (attempt : Except String (List Detection)) : OcrResult :=
  match attempt with
  | .ok ds =>
      { text := String.intercalate " " (ds.map Detection.text)
        confidence := if ds = [] then 0 else npMean (ds.map Detection.confidence) }
  | .error _ => { text := "", confidence := 0 }

/-- The Tesseract branch of `_extract_text_from_image`: on success the text is
stripped and the confidence is the mean of the strictly positive per-word
`conf` integers (or `0.0` when there is none) divided by `100.0`; a raised
exception yields `{"text": "", "confidence": 0.0}`. -/
def tesseractResult (attempt : Except String (String × List Int)) : OcrResult :=
  match attempt with
  | .ok p =>
      let pos := p.2.filter fun c => 0 < c
      { text := pyStrip p.1
        confidence :=
          (if pos = [] then 0 else npMean (pos.map fun c => (c : ℚ))) / 100 }
  | .error _ => { text := "", confidence := 0 }

/-- Python `max(results, key=lambda x: x.get("confidence", 0.0))` over a
non-empty list: scan left to right, replacing the current best only on a
strictly greater key, so the first element with the maximal key wins. -/
def selectBest : List OcrResult → OcrResult
  | [] => { text := "", confidence := 0 }
  | r :: rs => rs.foldl (fun best x => if best.confidence < x.confidence then x else best) r

/-- `MultimodalProcessor._extract_text_from_image`: run both registered OCR
engines (EasyOCR first, Tesseract second) and select the best result. -/
def extract_text_from_image (easy : Except String (List Detection))
    (tess : Except String (String × List Int)) : OcrResult :=
  selectBest [easyocrResult easy, tesseractResult tess]

/-- One Whisper segment; only its `avg_logprob` field is used. -/
structure WhisperSegment where
  avg_logprob : ℚ
deriving DecidableEq

/-- Success dict of `MultimodalProcessor._transcribe_audio` (the `language`
and `segments` keys are elided): the reported confidence is
`np.mean([seg["avg_logprob"] for seg in segments])`, modelled for the
non-empty segment lists Whisper produces on decodable audio. -/
structure Transcript where
  text : String
  confidence : ℚ
deriving DecidableEq

/-- The confidence computation of `_transcribe_audio`. -/
def transcribe_audio (text : String) (segments : List WhisperSegment) : Transcript :=
  { text := text
    confidence := npMean (segments.map WhisperSegment.avg_logprob) }

/-- `np.linspace(start, stop, num)` with endpoint inclusive, over `ℚ`. -/
def linspace (start stop : ℚ) (num : Nat) : List ℚ :=
  if num = 0 then []
  else if num = 1 then [start]
  else (List.range num).map fun i : Nat =>
    start + (stop - start) * (i : ℚ) / ((num : ℚ) - 1)

/-- `MultimodalProcessor._extract_key_frames(video, num_frames=10)`: the
sampled timestamps are `np.linspace(0, duration, num_frames)`. -/
def extract_key_frames (duration : ℚ) (num_frames : Nat) : List ℚ :=
  linspace 0 duration num_frames

/-- One entry of `results["frame_ocr"]`. -/
structure FrameText where
  timestamp : ℚ
  text : String
  confidence : ℚ
deriving DecidableEq

/-- `MultimodalProcessor._process_video`, restricted to the fields the claims
are about: the per-frame OCR list and the combined `results["text"]`.
`frameOcr` is the image-path extraction applied to the frame sampled at a
timestamp; `transcriptText` is `results["transcript"]["text"]`, present iff
the video has an audio track.  Returns `(results["text"], results["frame_ocr"])`:
`all_text` is the transcript (if any) followed by the frame texts whose
`strip()` is non-empty, joined with `" "`. -/
def process_video (duration : ℚ) (hasAudio : Bool) (transcriptText : String)
    (frameOcr : ℚ → OcrResult) : String × List FrameText :=
  let timestamps := extract_key_frames duration 10
  let frame_texts := timestamps.map fun ts =>
    { timestamp := ts
      text := (frameOcr ts).text
      confidence := (frameOcr ts).confidence : FrameText }
  let all_text :=
    (if hasAudio then [transcriptText] else []) ++
      (frame_texts.filter fun f => !isBlank f.text).map FrameText.text
  (String.intercalate " " all_text, frame_texts)

/- ### Media endpoints (`endpoints/media.py`) -/

/-- `ProcessingStatus` (`app/models/media.py`). -/
inductive ProcessingStatus where
  | pending
  | processing
  | completed
  | failed
deriving DecidableEq

/-- The fields of `MediaFile` the job pipeline reads or writes. -/
structure MediaRecord where
  id : Nat
  media_type : String
  processing_status : ProcessingStatus
  processing_error : Option String
  extracted_text : Option String
deriving DecidableEq

/-- Response of the `POST /files/{file_id}/reprocess` endpoint. -/
inductive ReprocessResponse where
  | notFound
  | started (record : MediaRecord)
deriving DecidableEq

/-- `reprocess_media_file`: 404 when the record is absent; otherwise the
record's status is set to `PENDING`, its `processing_error` is cleared, the
background job is queued, and `{"message": ..., "status": PENDING}` is
returned — the current status is never inspected. -/
def reprocess_media_file : Option MediaRecord → ReprocessResponse
  | none => .notFound
  | some r =>
      .started { r with processing_status := .pending, processing_error := none }

/-- `settings.MAX_FILE_SIZE`. -/
def MAX_FILE_SIZE : Nat := 50 * 1024 * 1024

/-- `_determine_media_type` with the `settings.SUPPORTED_*_FORMATS` lists. -/
def determine_media_type (ext : String) : Option String :=
  if ext ∈ ["jpg", "jpeg", "png", "gif", "bmp", "tiff"] then some "image"
  else if ext ∈ ["mp4", "avi", "mov", "wmv", "flv", "webm"] then some "video"
  else if ext ∈ ["mp3", "wav", "flac", "ogg", "m4a"] then some "audio"
  else none

/-- Response of the `POST /upload` endpoint (the success dict is summarized by
the media type and the returned status). -/
inductive UploadResponse where
  | tooLarge
  | unsupportedFormat
  | accepted (media_type : String) (status : ProcessingStatus)
deriving DecidableEq

/-- `upload_media_file` after filename parsing: 413 when the size exceeds
`MAX_FILE_SIZE`, 400 for an unsupported extension, otherwise a fresh
`MediaFile` row is created with status `PENDING` and the background job is
queued — no existing record is consulted. -/
def upload_media_file (size : Nat) (ext : String) : UploadResponse :=
  if MAX_FILE_SIZE < size then .tooLarge
  else
    match determine_media_type ext with
    | none => .unsupportedFormat
    | some mt => .accepted mt .pending

/-- Outcome of `processor.process_media_file`: either the caught-exception
dict (`"error" in results`) or a success carrying `results.get("text", "")`. -/
inductive ProcResults where
  | failure (error : String)
  | success (text : String)
deriving DecidableEq

/-- `process_media_file_async(file_id)`, given the record looked up for the
id, the processor outcome, the embedding capabilities and the current vector
collection; returns the final record state and the final collection.  On
success the status becomes `COMPLETED` and the text is persisted; the
embed-and-store step runs only under Python truthiness of
`media_file.extracted_text`, i.e. only when the text is non-empty.  (The
intermediate `PROCESSING` commit is subsumed by the final state.) -/
def process_media_file_async (record? : Option MediaRecord) (results : ProcResults)
    (split : String → List String) (encode : String → List ℚ)
    (collection : List StoredRecord) :
    Option MediaRecord × List StoredRecord :=
  match record? with
  | none => (none, collection)
  | some record =>
      match results with
      | .failure e =>
          (some { record with processing_status := .failed, processing_error := some e },
           collection)
      | .success text =>
          let record1 :=
            { record with processing_status := .completed, extracted_text := some text }
          if text = "" then (some record1, collection)
          else
            let embs := create_embeddings split encode text
              [("media_file_id", toString record.id), ("media_type", record.media_type)]
            (some record1, storeAdd collection embs ("media_" ++ toString record.id))

/- ### Claim theorems -/

/-- C1: for every non-empty retrieval result list, `rag_query` returns the
retrieved chunks as its sources and a confidence that is the minimum of their
similarity scores (a member of the similarity list that bounds all of them
from below). -/
theorem rag_confidence_is_min_similarity (results : List SearchResult)
    (h : results ≠ []) (gen : CompletionResult) :
    ∃ c : ℚ,
      (rag_query (.ok results) gen).confidence = some c ∧
      (rag_query (.ok results) gen).sources = some results ∧
      c ∈ results.map SearchResult.similarity ∧
      ∀ s ∈ results.map SearchResult.similarity, c ≤ s := by
  match results, h with
  | r :: rs, _ =>
    refine ⟨listMin ((r :: rs).map SearchResult.similarity), rfl, rfl, ?_, ?_⟩
    · simpa using (listMin_spec (rs.map SearchResult.similarity) r.similarity).1
    · simpa using (listMin_spec (rs.map SearchResult.similarity) r.similarity).2

/-- Witness for C1 at the spec's example: similarities `[0.81, 0.64, 0.92]`
yield confidence `0.64`. -/
theorem rag_confidence_is_min_similarity_witness :
    ([⟨"a", 81/100, []⟩, ⟨"b", 64/100, []⟩, ⟨"c", 92/100, []⟩] :
        List SearchResult) ≠ [] ∧
    (∃ c : ℚ,
      (rag_query (.ok [⟨"a", 81/100, []⟩, ⟨"b", 64/100, []⟩, ⟨"c", 92/100, []⟩])
          (.ok "ans")).confidence = some c ∧
      (rag_query (.ok [⟨"a", 81/100, []⟩, ⟨"b", 64/100, []⟩, ⟨"c", 92/100, []⟩])
          (.ok "ans")).sources =
        some [⟨"a", 81/100, []⟩, ⟨"b", 64/100, []⟩, ⟨"c", 92/100, []⟩] ∧
      c ∈ ([⟨"a", 81/100, []⟩, ⟨"b", 64/100, []⟩, ⟨"c", 92/100, []⟩] :
          List SearchResult).map SearchResult.similarity ∧
      ∀ s ∈ ([⟨"a", 81/100, []⟩, ⟨"b", 64/100, []⟩, ⟨"c", 92/100, []⟩] :
          List SearchResult).map SearchResult.similarity, c ≤ s) ∧
    (rag_query (.ok [⟨"a", 81/100, []⟩, ⟨"b", 64/100, []⟩, ⟨"c", 92/100, []⟩])
        (.ok "ans")).confidence = some (64/100 : ℚ) :=
  ⟨by decide,
   rag_confidence_is_min_similarity _ (by decide) _,
   by norm_num [rag_query, listMin, min_def]⟩

/-- C4: on empty retrieval, `rag_query` returns the fixed
no-information-found answer, an empty source list, confidence exactly `0.0`,
no `model_info` and no `error` key — no exception path is taken. -/
theorem rag_empty_retrieval_no_info (gen : CompletionResult) :
    (rag_query (.ok []) gen).answer = some noInfoAnswer ∧
    (rag_query (.ok []) gen).sources = some [] ∧
    (rag_query (.ok []) gen).confidence = some 0 ∧
    (rag_query (.ok []) gen).model_info = none ∧
    (rag_query (.ok []) gen).error = none :=
  ⟨rfl, rfl, rfl, rfl, rfl⟩

/-- C9: a generation-capability failure is caught by `generate_completion`
(which returns the `{"error": ...}` dict instead of raising), and `rag_query`
then still returns the retrieved sources, with the error indication carried in
`model_info`, an empty answer text, and no top-level `error` key. -/
theorem rag_generation_failure_keeps_sources (results : List SearchResult)
    (h : results ≠ []) (e : String) (anthropicOutcome : Except String String) :
    generate_completion "gpt-3.5-turbo" (.error e) anthropicOutcome = .err e ∧
    (rag_query (.ok results) (.err e)).sources = some results ∧
    (rag_query (.ok results) (.err e)).model_info = some (.err e) ∧
    (rag_query (.ok results) (.err e)).answer = some "" ∧
    (rag_query (.ok results) (.err e)).error = none := by
  match results, h with
  | r :: rs, _ => exact ⟨rfl, rfl, rfl, rfl, rfl⟩

/-- Witness for C9 at a concrete retrieval result and API error. -/
theorem rag_generation_failure_keeps_sources_witness :
    ([⟨"chunk", 7/10, []⟩] : List SearchResult) ≠ [] ∧
    generate_completion "gpt-3.5-turbo" (.error "rate limit") (.ok "unused") =
      .err "rate limit" ∧
    (rag_query (.ok [⟨"chunk", 7/10, []⟩]) (.err "rate limit")).sources =
      some [⟨"chunk", 7/10, []⟩] ∧
    (rag_query (.ok [⟨"chunk", 7/10, []⟩]) (.err "rate limit")).model_info =
      some (.err "rate limit") ∧
    (rag_query (.ok [⟨"chunk", 7/10, []⟩]) (.err "rate limit")).answer = some "" ∧
    (rag_query (.ok [⟨"chunk", 7/10, []⟩]) (.err "rate limit")).error = none := by
  have h := rag_generation_failure_keeps_sources [⟨"chunk", 7/10, []⟩]
    (by decide) "rate limit" (.ok "unused")
  exact ⟨by decide, h.1, h.2.1, h.2.2.1, h.2.2.2.1, h.2.2.2.2⟩

/-- C3: image extraction selects, among the two registered OCR engines
(EasyOCR first, Tesseract second), the result with the maximum confidence,
keeping the first-registered engine's result on a tie, and a raised engine
exception contributes `{"text": "", "confidence": 0.0}`. -/
theorem ocr_best_result_selection (easy : Except String (List Detection))
    (tess : Except String (String × List Int)) :
    (extract_text_from_image easy tess =
      if (easyocrResult easy).confidence < (tesseractResult tess).confidence
      then tesseractResult tess else easyocrResult easy) ∧
    (extract_text_from_image easy tess).confidence =
      max (easyocrResult easy).confidence (tesseractResult tess).confidence ∧
    (∀ msg, easyocrResult (.error msg) = { text := "", confidence := 0 }) ∧
    (∀ msg, tesseractResult (.error msg) = { text := "", confidence := 0 }) := by
  refine ⟨rfl, ?_, fun _ => rfl, fun _ => rfl⟩
  have hbest : extract_text_from_image easy tess =
      if (easyocrResult easy).confidence < (tesseractResult tess).confidence
      then tesseractResult tess else easyocrResult easy := rfl
  rw [hbest]
  rcases lt_or_ge (easyocrResult easy).confidence (tesseractResult tess).confidence
    with hlt | hge
  · rw [if_pos hlt]
    exact (max_eq_right hlt.le).symm
  · rw [if_neg (not_lt.mpr hge)]
    exact (max_eq_left hge).symm

/-- C5 (code bug): the speech-to-text confidence reported by
`_transcribe_audio` is the mean of Whisper's `avg_logprob` values — a
log-probability.  At a typical segment log-probability of `-0.5` the reported
confidence is `-0.5`, which lies outside `[0,1]`, so engine confidences are
not all normalized to `[0,1]`. -/
theorem whisper_confidence_not_normalized :
    (transcribe_audio "テスト" [{ avg_logprob := -(1 : ℚ)/2 }]).confidence =
      -(1 : ℚ)/2 ∧
    (transcribe_audio "テスト" [{ avg_logprob := -(1 : ℚ)/2 }]).confidence < 0 := by
  constructor
  · norm_num [transcribe_audio, npMean]
  · norm_num [transcribe_audio, npMean]

/-- For a non-decreasing span, `np.linspace` produces a non-decreasing list
of sample points. -/
theorem linspace_pairwise_le (start stop : ℚ) (num : Nat) (h : start ≤ stop) :
    (linspace start stop num).Pairwise (· ≤ ·) := by
  by_cases h0 : num = 0
  · simp [linspace, h0]
  by_cases h1 : num = 1
  · simp [linspace, h0, h1]
  have h2 : 2 ≤ num := by omega
  have hden : (0 : ℚ) < (num : ℚ) - 1 := by
    have hc : (2 : ℚ) ≤ (num : ℚ) := by exact_mod_cast h2
    linarith
  have hrw : linspace start stop num =
      (List.range num).map fun i : Nat =>
        start + (stop - start) * (i : ℚ) / ((num : ℚ) - 1) := by
    simp [linspace, h0, h1]
  rw [hrw]
  refine List.Pairwise.map _ ?_ (List.pairwise_lt_range num)
  intro a b hab
  have hab' : (a : ℚ) ≤ (b : ℚ) := by exact_mod_cast hab.le
  have hspan : (0 : ℚ) ≤ stop - start := by linarith
  have hmul : (stop - start) * (a : ℚ) / ((num : ℚ) - 1) ≤
      (stop - start) * (b : ℚ) / ((num : ℚ) - 1) := by
    gcongr
  linarith

/-- C6: the video document text is the transcript (when an audio track
exists) followed by the frame texts whose `strip()` is non-empty, joined with
a single space, and the per-frame OCR list is in non-decreasing timestamp
order (the key frames are sampled at `linspace(0, duration, 10)`). -/
theorem video_text_concatenation (duration : ℚ) (hd : 0 ≤ duration)
    (hasAudio : Bool) (transcriptText : String) (frameOcr : ℚ → OcrResult) :
    (process_video duration hasAudio transcriptText frameOcr).1 =
      String.intercalate " "
        ((if hasAudio then [transcriptText] else []) ++
          ((process_video duration hasAudio transcriptText frameOcr).2.filter
              fun f => !isBlank f.text).map FrameText.text) ∧
    ((process_video duration hasAudio transcriptText frameOcr).2.map
        FrameText.timestamp).Pairwise (· ≤ ·) := by
  constructor
  · rfl
  · have hts : ∀ l : List ℚ, (l.map fun ts =>
        ({ timestamp := ts, text := (frameOcr ts).text,
           confidence := (frameOcr ts).confidence } : FrameText)).map
          FrameText.timestamp = l := by
      intro l
      induction l with
      | nil => rfl
      | cons a t ih => simp [ih]
    have h2 : (process_video duration hasAudio transcriptText frameOcr).2.map
        FrameText.timestamp = extract_key_frames duration 10 := hts _
    rw [h2]
    exact linspace_pairwise_le 0 duration 10 hd

/-- Witness for C6: a 9-second video with audio and a constant OCR result. -/
theorem video_text_concatenation_witness :
    (0 : ℚ) ≤ 9 ∧
    ((process_video 9 true "hello" fun _ => { text := "txt", confidence := 1 }).1 =
      String.intercalate " "
        ((if true then ["hello"] else []) ++
          ((process_video 9 true "hello" fun _ =>
              { text := "txt", confidence := 1 }).2.filter
              fun f => !isBlank f.text).map FrameText.text) ∧
    ((process_video 9 true "hello" fun _ =>
        { text := "txt", confidence := 1 }).2.map
        FrameText.timestamp).Pairwise (· ≤ ·)) :=
  ⟨by norm_num,
   video_text_concatenation 9 (by norm_num) true "hello"
     fun _ => { text := "txt", confidence := 1 }⟩

/-- C7: `create_embeddings` returns `[]` for blank input without an error
path, and every embedding it ever returns has a chunk text that is non-blank
after stripping. -/
theorem chunking_discards_blank (split : String → List String)
    (encode : String → List ℚ) (text : String) (metadata : List (String × String)) :
    (isBlank text = true → create_embeddings split encode text metadata = []) ∧
    ∀ e ∈ create_embeddings split encode text metadata, isBlank e.text = false := by
  constructor
  · intro hb
    simp [create_embeddings, hb]
  · intro e he
    unfold create_embeddings at he
    by_cases hb : isBlank text
    · simp [hb] at he
    · rw [if_neg hb, List.mem_filterMap] at he
      obtain ⟨p, _, hp⟩ := he
      by_cases hbc : isBlank p.2
      · simp [hbc] at hp
      · rw [if_neg hbc] at hp
        obtain rfl := Option.some_injective _ hp
        simpa using hbc

/-- Witness for C7: a splitter producing one blank and one real chunk; the
blank input returns `[]` and the surviving chunk is non-blank. -/
theorem chunking_discards_blank_witness :
    isBlank "  " = true ∧
    create_embeddings (fun s => [s, "  ", "world"]) (fun _ => [1]) "  " [] = [] ∧
    ∀ e ∈ create_embeddings (fun s => [s, "  ", "world"]) (fun _ => [1]) "hi" [],
      isBlank e.text = false :=
  ⟨by decide,
   (chunking_discards_blank (fun s => [s, "  ", "world"]) (fun _ => [1]) "  " []).1
     (by decide),
   (chunking_discards_blank (fun s => [s, "  ", "world"]) (fun _ => [1]) "hi" []).2⟩

/-- C8: `store_embeddings` is a no-op on an empty sequence and otherwise
assigns the id `{document_id}_{i}` to the record stored for the chunk at
sequence position `i`, carrying that chunk's text, vector and metadata. -/
theorem store_ids_are_indexed (embeddings : List Embedding) (document_id : String) :
    store_embeddings [] document_id = [] ∧
    (store_embeddings embeddings document_id).length = embeddings.length ∧
    ∀ (i : Nat) (e : Embedding), embeddings[i]? = some e →
      (store_embeddings embeddings document_id)[i]? =
        some { id := document_id ++ "_" ++ toString i
               text := e.text
               vector := e.vector
               metadata := e.metadata } := by
  refine ⟨rfl, ?_, ?_⟩
  · by_cases h : embeddings = []
    · simp [store_embeddings, h]
    · simp [store_embeddings, h]
  · intro i e hie
    have hne : embeddings ≠ [] := by
      intro h
      rw [h] at hie
      simp at hie
    have henum : embeddings.enum[i]? = some (i, e) := by
      simp [List.getElem?_enum, hie]
    simp [store_embeddings, hne, List.getElem?_map, henum]

/-- Witness for C8 at a two-chunk document. -/
theorem store_ids_are_indexed_witness :
    ([{ text := "alpha", vector := [1],
        metadata := { chunk_index := 0, chunk_size := 5, original_length := 10, extra := [] } },
      { text := "beta", vector := [2],
        metadata := { chunk_index := 1, chunk_size := 4, original_length := 10, extra := [] } }] :
      List Embedding)[1]? =
      some { text := "beta", vector := [2],
             metadata := { chunk_index := 1, chunk_size := 4, original_length := 10, extra := [] } } ∧
    (store_embeddings
        [{ text := "alpha", vector := [1],
           metadata := { chunk_index := 0, chunk_size := 5, original_length := 10, extra := [] } },
         { text := "beta", vector := [2],
           metadata := { chunk_index := 1, chunk_size := 4, original_length := 10, extra := [] } }]
        "doc")[1]? =
      some { id := "doc" ++ "_" ++ toString 1
             text := "beta"
             vector := [2]
             metadata := { chunk_index := 1, chunk_size := 4, original_length := 10, extra := [] } } :=
  ⟨by decide,
   (store_ids_are_indexed
      [{ text := "alpha", vector := [1],
         metadata := { chunk_index := 0, chunk_size := 5, original_length := 10, extra := [] } },
       { text := "beta", vector := [2],
         metadata := { chunk_index := 1, chunk_size := 4, original_length := 10, extra := [] } }]
      "doc").2.2 1
     { text := "beta", vector := [2],
       metadata := { chunk_index := 1, chunk_size := 4, original_length := 10, extra := [] } }
     (by decide)⟩

/-- C2 counterexample: reprocessing a record whose status is `PROCESSING`
does not fail — the endpoint has no conflict check at all — and it mutates
the job's state: the status is reset to `PENDING` and the stored error is
cleared, contradicting both parts of the claim. -/
theorem reprocess_no_conflict_counterexample :
    reprocess_media_file (some
      { id := 1, media_type := "image", processing_status := .processing,
        processing_error := some "prior failure", extracted_text := none }) =
      .started
        { id := 1, media_type := "image", processing_status := .pending,
          processing_error := none, extracted_text := none } ∧
    ProcessingStatus.pending ≠ ProcessingStatus.processing ∧
    (none : Option String) ≠ some "prior failure" := by
  exact ⟨rfl, by decide, by decide⟩

/-- C2 amended: submitting a job never fails with a ConflictError.  A
reprocess request on any existing record — including one whose status is
`PENDING` or `PROCESSING` — succeeds, resets the status to `PENDING` and
clears the error (404 only when the record is absent), and an upload of a
valid file always creates a fresh `PENDING` record without consulting any
existing job. -/
theorem submit_never_conflicts (r : MediaRecord) :
    reprocess_media_file (some r) =
      .started { r with processing_status := .pending, processing_error := none } ∧
    reprocess_media_file none = .notFound ∧
    ∀ size : Nat, ∀ ext mt : String, size ≤ MAX_FILE_SIZE →
      determine_media_type ext = some mt →
      upload_media_file size ext = .accepted mt .pending := by
  refine ⟨rfl, rfl, ?_⟩
  intro size ext mt hsize hmt
  unfold upload_media_file
  rw [if_neg (by omega), hmt]

/-- Witness for C2's amended statement: a busy record and a small PNG. -/
theorem submit_never_conflicts_witness :
    reprocess_media_file (some
      { id := 2, media_type := "image", processing_status := .processing,
        processing_error := some "x", extracted_text := none }) =
      .started
        { id := 2, media_type := "image", processing_status := .pending,
          processing_error := none, extracted_text := none } ∧
    100 ≤ MAX_FILE_SIZE ∧
    determine_media_type "png" = some "image" ∧
    upload_media_file 100 "png" = .accepted "image" .pending := by
  have h := submit_never_conflicts
    { id := 2, media_type := "image", processing_status := .processing,
      processing_error := some "x", extracted_text := none }
  exact ⟨h.1, by norm_num [MAX_FILE_SIZE], by decide,
         h.2.2 100 "png" "image" (by norm_num [MAX_FILE_SIZE]) (by decide)⟩

/-- C10: when processing succeeds with empty extracted text, the record is
marked `COMPLETED` (with the empty text persisted) but the embed-and-store
step is skipped: the vector collection is unchanged, so a document that had
no indexed chunks before still has none and no search over the collection can
return it. -/
theorem empty_text_completed_but_unsearchable (record : MediaRecord)
    (split : String → List String) (encode : String → List ℚ)
    (collection : List StoredRecord) :
    (process_media_file_async (some record) (.success "") split encode collection).1 =
      some { record with processing_status := .completed, extracted_text := some "" } ∧
    (process_media_file_async (some record) (.success "") split encode collection).2 =
      collection ∧
    (docRecords collection ("media_" ++ toString record.id) = [] →
      docRecords
        (process_media_file_async (some record) (.success "") split encode collection).2
        ("media_" ++ toString record.id) = []) := by
  refine ⟨rfl, rfl, ?_⟩
  intro h
  exact h

/-- Witness for C10: a concrete pending record and an empty collection. -/
theorem empty_text_completed_but_unsearchable_witness :
    (process_media_file_async (some
        { id := 7, media_type := "image", processing_status := .processing,
          processing_error := none, extracted_text := none })
      (.success "") (fun s => [s]) (fun _ => [1]) []).1 =
      some { id := 7, media_type := "image", processing_status := .completed,
             processing_error := none, extracted_text := some "" } ∧
    (process_media_file_async (some
        { id := 7, media_type := "image", processing_status := .processing,
          processing_error := none, extracted_text := none })
      (.success "") (fun s => [s]) (fun _ => [1]) []).2 = [] ∧
    docRecords [] ("media_" ++ toString 7) = [] ∧
    docRecords
      (process_media_file_async (some
          { id := 7, media_type := "image", processing_status := .processing,
            processing_error := none, extracted_text := none })
        (.success "") (fun s => [s]) (fun _ => [1]) []).2
      ("media_" ++ toString 7) = [] := by
  have h := empty_text_completed_but_unsearchable
    { id := 7, media_type := "image", processing_status := .processing,
      processing_error := none, extracted_text := none }
    (fun s => [s]) (fun _ => [1]) []
  exact ⟨h.1, h.2.1, rfl, h.2.2 rfl⟩

end MediaAssistant
